import Mathlib

/-
  Shallow embedding of src/engine/platform/native/native.c (PyFlare native
  platform layer).

  Modelling conventions:
  - Opaque OS handles (HWND, HGLRC, Display*, Window, GLXContext, void*) are
    numbers, with 0 standing for NULL, matching the truthiness tests in C.
  - `double` timing values are idealized as rationals; the platform clock
    (GetTickCount, clock_gettime) is an oracle value passed to each call.
  - OS and GL calls whose results the code branches on are oracle fields of
    an environment structure; calls whose results are ignored are omitted.
  - `printf` output is modelled as a list of emitted message strings.
  - The mutable globals (g_window, and on X11 g_display/g_x_window/
    g_glx_context) are threaded explicitly through each function.
-/

namespace Pyflare

/-- WindowConfig from native.c lines 32-40. -/
structure WindowConfig where
  width : Int
  height : Int
  title : String
  fullscreen : Bool
  vsync : Bool
  gl_major : Int
  gl_minor : Int
deriving DecidableEq

/-- WindowState from native.c lines 42-50: the process-wide record g_window. -/
structure WindowState where
  native_handle : Nat
  gl_context : Nat
  width : Int
  height : Int
  is_open : Bool
  last_time : Rat
  delta_time : Rat
deriving DecidableEq

/-- The zero-initialized global, `static WindowState g_window = {0};`. -/
def initialWindowState : WindowState :=
  { native_handle := 0, gl_context := 0, width := 0, height := 0,
    is_open := false, last_time := 0, delta_time := 0 }

/-- The extra X11-branch globals (native.c lines 163-165), zero/NULL at load. -/
structure X11Globals where
  g_display : Nat
  g_x_window : Nat
  g_glx_context : Nat
deriving DecidableEq

def initialX11Globals : X11Globals :=
  { g_display := 0, g_x_window := 0, g_glx_context := 0 }

/-- Oracle for the OS/GL calls the X11 `native_create_window` branches on or
stores: XOpenDisplay result (0 = NULL), whether glXChooseVisual returns a
visual, the XCreateWindow id and the glXCreateContext handle. -/
structure X11CreateEnv where
  openDisplay : Nat
  chooseVisualOk : Bool
  createdWindow : Nat
  glxContext : Nat
deriving DecidableEq

/-- X11 `native_create_window` (native.c lines 167-221). Returns the int
result together with the updated globals, updated g_window and the printed
messages. -/
def native_create_window_x11 (env : X11CreateEnv) (config : WindowConfig)
    (g : X11Globals) (s : WindowState) :
    Nat × X11Globals × WindowState × List String :=
  let g1 : X11Globals := { g with g_display := env.openDisplay }
  if g1.g_display = 0 then
    (0, g1, s, ["Failed to open X display"])
  else if env.chooseVisualOk = false then
    (0, g1, s, ["Failed to choose visual"])
  else
    let g2 : X11Globals :=
      { g1 with g_x_window := env.createdWindow,
                g_glx_context := env.glxContext }
    let s1 : WindowState :=
      { s with native_handle := env.createdWindow,
               gl_context := env.glxContext,
               width := config.width,
               height := config.height,
               is_open := true }
    (1, g2, s1, [])

/-- Oracle for the Win32 `native_create_window` branch: RegisterClassEx
success, the CreateWindowEx handle (0 = NULL), the wglCreateContext handle,
and the GetTickCount reading (milliseconds) taken at creation. -/
structure Win32CreateEnv where
  registerClassOk : Bool
  createdHwnd : Nat
  hglrc : Nat
  tickCount : Nat
deriving DecidableEq

/-- Win32 `native_create_window` (native.c lines 79-144). -/
def native_create_window_win32 (env : Win32CreateEnv) (config : WindowConfig)
    (s : WindowState) : Nat × WindowState × List String :=
  if env.registerClassOk = false then
    (0, s, ["Failed to register window class"])
  else if env.createdHwnd = 0 then
    (0, s, ["Failed to create window"])
  else
    let s1 : WindowState :=
      { s with native_handle := env.createdHwnd,
               gl_context := env.hglrc,
               width := config.width,
               height := config.height,
               is_open := true,
               last_time := (env.tickCount : Rat) / 1000 }
    (1, s1, [])

/-- The WindowConfig that `native_init_window` builds (native.c lines 252-259). -/
def initConfig (width height : Int) (title : String)
    (fullscreen vsync : Int) : WindowConfig :=
  { width := width, height := height, title := title,
    fullscreen := fullscreen ≠ 0, vsync := vsync ≠ 0,
    gl_major := 2, gl_minor := 1 }

/-- Function `native_init_window` (native.c lines 251-281), X11 build: builds the
config, calls native_create_window, returns 0 on its failure and 1 after the
GL setup otherwise. -/
def native_init_window_x11 (env : X11CreateEnv) (width height : Int)
    (title : String) (fullscreen vsync : Int)
    (g : X11Globals) (s : WindowState) :
    Nat × X11Globals × WindowState × List String :=
  let config := initConfig width height title fullscreen vsync
  let r := native_create_window_x11 env config g s
  if r.1 = 0 then
    (0, r.2.1, r.2.2.1, r.2.2.2)
  else
    (1, r.2.1, r.2.2.1, r.2.2.2)

/-- Function `native_init_window` (native.c lines 251-281), Win32 build. -/
def native_init_window_win32 (env : Win32CreateEnv) (width height : Int)
    (title : String) (fullscreen vsync : Int) (s : WindowState) :
    Nat × WindowState × List String :=
  let config := initConfig width height title fullscreen vsync
  let r := native_create_window_win32 env config s
  if r.1 = 0 then
    (0, r.2.1, r.2.2)
  else
    (1, r.2.1, r.2.2)

/-- The X11 events the pump inspects (native.c lines 232-241): ClientMessage
(window close), ConfigureNotify with its new size, and everything else. -/
inductive XEvent where
  | clientMessage : XEvent
  | configureNotify (width height : Int) : XEvent
  | otherEvent : XEvent
deriving DecidableEq

/-- The body of the X11 event loop switch (native.c lines 232-241). -/
def processXEvent (s : WindowState) : XEvent → WindowState
  | XEvent.clientMessage => { s with is_open := false }
  | XEvent.configureNotify w h => { s with width := w, height := h }
  | XEvent.otherEvent => s

/-- X11 `native_poll_events` (native.c lines 227-243): while XPending, pull
the next event and dispatch on its type. Returns the state and the (empty)
remaining queue. -/
def native_poll_events_x11 : WindowState → List XEvent → WindowState × List XEvent
  | s, [] => (s, [])
  | s, e :: rest => native_poll_events_x11 (processXEvent s e) rest

/-- The Win32 messages WindowProc inspects (native.c lines 62-77). WM_SIZE
carries the packed lParam whose low/high 16-bit words are the new size. -/
inductive Win32Msg where
  | wmClose : Win32Msg
  | wmSize (lParam : Nat) : Win32Msg
  | wmDestroy : Win32Msg
  | otherMsg : Win32Msg
deriving DecidableEq

/-- WindowProc (native.c lines 62-77): WM_CLOSE clears the open flag,
WM_SIZE stores LOWORD/HIWORD of lParam as the size, WM_DESTROY and other
messages leave g_window unchanged. -/
def windowProc (s : WindowState) : Win32Msg → WindowState
  | Win32Msg.wmClose => { s with is_open := false }
  | Win32Msg.wmSize lParam =>
      { s with width := ((lParam % 65536 : Nat) : Int),
               height := ((lParam / 65536 % 65536 : Nat) : Int) }
  | Win32Msg.wmDestroy => s
  | Win32Msg.otherMsg => s

/-- Win32 `native_poll_events` (native.c lines 152-158): while PeekMessage
removes a message, dispatch it to WindowProc. -/
def native_poll_events_win32 : WindowState → List Win32Msg → WindowState × List Win32Msg
  | s, [] => (s, [])
  | s, m :: rest => native_poll_events_win32 (windowProc s m) rest

/-- Function `native_destroy_window` (native.c lines 283-307): releases the OS
resources (no effect on the modelled record) and sets is_open to false.
No other field of g_window, and none of the X11 globals, is written. -/
def native_destroy_window (s : WindowState) : WindowState :=
  { s with is_open := false }

/-- Function `native_update` (native.c lines 309-323), X11 build: polls events, reads
CLOCK_MONOTONIC (the oracle argument current_time, in seconds), then sets
delta_time to current_time - last_time and last_time to current_time. -/
def native_update_x11 (s : WindowState) (queue : List XEvent)
    (current_time : Rat) : WindowState × List XEvent :=
  let r := native_poll_events_x11 s queue
  ({ r.1 with delta_time := current_time - r.1.last_time,
              last_time := current_time }, r.2)

/-- Function `native_is_window_open` (native.c lines 329-331). -/
def native_is_window_open (s : WindowState) : Nat :=
  if s.is_open then 1 else 0

/-- Function `native_get_window_size` (native.c lines 333-336): the pair written
through the two out-pointers. -/
def native_get_window_size (s : WindowState) : Int × Int :=
  (s.width, s.height)

/-- Function `native_get_delta_time` (native.c lines 338-340). -/
def native_get_delta_time (s : WindowState) : Rat :=
  s.delta_time

/-- Oracle for the GL calls of `native_create_shader`: per-source compile
success and info log, link success of the program, the program name returned
by glCreateProgram, and the program info log. -/
structure GLEnv where
  compileOk : String → Bool
  infoLog : String → String
  linkOk : Bool
  programId : Nat
  programInfoLog : String

/-- Function `native_create_shader` (native.c lines 351-394): compile the vertex
shader, on failure print its info log and return 0; likewise the fragment
shader; link, on failure print the program log and return 0; otherwise
return the program name. Also returns the printed messages. -/
def native_create_shader (env : GLEnv) (vertex_src fragment_src : String) :
    Nat × List String :=
  if env.compileOk vertex_src = false then
    (0, ["Vertex shader compilation failed: " ++ env.infoLog vertex_src])
  else if env.compileOk fragment_src = false then
    (0, ["Fragment shader compilation failed: " ++ env.infoLog fragment_src])
  else if env.linkOk = false then
    (0, ["Shader program linking failed: " ++ env.programInfoLog])
  else
    (env.programId, [])

/-- Oracle for GetProcessMemoryInfo on Win32: whether the query succeeds and
the SIZE_T WorkingSetSize it fills in. -/
structure Win32MemEnv where
  queryOk : Bool
  workingSetSize : Nat
deriving DecidableEq

/-- The C cast `(long)pmc.WorkingSetSize`: long is 32 bits on Win32, so the
SIZE_T value is reduced modulo 2^32 and read as a signed 32-bit integer. -/
def longOfSizeT (n : Nat) : Int :=
  let m : Nat := n % 2 ^ 32
  if m < 2 ^ 31 then (m : Int) else (m : Int) - 2 ^ 32

/-- Function `native_get_memory_usage` (native.c lines 408-416), Win32 build: the
working-set size cast to long when the query succeeds, else 0. -/
def native_get_memory_usage_win32 (env : Win32MemEnv) : Int :=
  if env.queryOk then longOfSizeT env.workingSetSize else 0

/-- Function `native_get_memory_usage` (native.c lines 408-416), non-Windows build:
the #ifdef _WIN32 block is compiled out and the function returns 0. -/
def native_get_memory_usage_other : Int := 0

/-- The API calls that can write g_window on the X11 build, for the
state-machine view of the open flag. Getter calls do not write the state. -/
inductive Op where
  | init (env : X11CreateEnv) (width height : Int) (title : String)
      (fullscreen vsync : Int) : Op
  | destroy : Op
  | poll (queue : List XEvent) : Op
  | update (queue : List XEvent) (current_time : Rat) : Op

/-- One API call acting on the X11 globals and g_window. -/
def stepOp (gs : X11Globals × WindowState) : Op → X11Globals × WindowState
  | Op.init env w h t f v =>
      let r := native_init_window_x11 env w h t f v gs.1 gs.2
      (r.2.1, r.2.2.1)
  | Op.destroy => (gs.1, native_destroy_window gs.2)
  | Op.poll q => (gs.1, (native_poll_events_x11 gs.2 q).1)
  | Op.update q t => (gs.1, (native_update_x11 gs.2 q t).1)

/- Helper lemmas about the event pumps. -/

theorem poll_x11_queue_empty (q : List XEvent) (s : WindowState) :
    (native_poll_events_x11 s q).2 = [] := by
  induction q generalizing s with
  | nil => rfl
  | cons e rest ih => exact ih (processXEvent s e)

theorem poll_x11_open_mono (q : List XEvent) (s : WindowState)
    (h : (native_poll_events_x11 s q).1.is_open = true) : s.is_open = true := by
  induction q generalizing s with
  | nil => exact h
  | cons e rest ih =>
      have h2 : (native_poll_events_x11 (processXEvent s e) rest).1.is_open = true := h
      have h3 := ih (processXEvent s e) h2
      cases e with
      | clientMessage => simp [processXEvent] at h3
      | configureNotify w hh => simpa [processXEvent] using h3
      | otherEvent => simpa [processXEvent] using h3

theorem poll_x11_closed_of_close (q : List XEvent) (s : WindowState)
    (h : XEvent.clientMessage ∈ q) :
    (native_poll_events_x11 s q).1.is_open = false := by
  induction q generalizing s with
  | nil => cases h
  | cons e rest ih =>
      show (native_poll_events_x11 (processXEvent s e) rest).1.is_open = false
      rcases List.mem_cons.mp h with he | hrest
      · subst he
        by_cases hres : (native_poll_events_x11 (processXEvent s XEvent.clientMessage) rest).1.is_open = true
        · have := poll_x11_open_mono rest _ hres
          simp [processXEvent] at this
        · simpa using Bool.eq_false_iff.mpr hres
      · exact ih (processXEvent s e) hrest

theorem poll_x11_open_of_no_close (q : List XEvent) (s : WindowState)
    (h : XEvent.clientMessage ∉ q) :
    (native_poll_events_x11 s q).1.is_open = s.is_open := by
  induction q generalizing s with
  | nil => rfl
  | cons e rest ih =>
      have hne : e ≠ XEvent.clientMessage := fun he => h (he ▸ List.mem_cons_self e rest)
      have hrest : XEvent.clientMessage ∉ rest := fun hr => h (List.mem_cons_of_mem e hr)
      show (native_poll_events_x11 (processXEvent s e) rest).1.is_open = s.is_open
      have h3 := ih (processXEvent s e) hrest
      cases e with
      | clientMessage => exact absurd rfl hne
      | configureNotify w hh => simpa [processXEvent] using h3
      | otherEvent => simpa [processXEvent] using h3

theorem poll_x11_size_of_no_resize (q : List XEvent) (s : WindowState)
    (h : ∀ a b, XEvent.configureNotify a b ∉ q) :
    (native_poll_events_x11 s q).1.width = s.width ∧
    (native_poll_events_x11 s q).1.height = s.height := by
  induction q generalizing s with
  | nil => exact ⟨rfl, rfl⟩
  | cons e rest ih =>
      have hrest : ∀ a b, XEvent.configureNotify a b ∉ rest :=
        fun a b hr => h a b (List.mem_cons_of_mem e hr)
      show (native_poll_events_x11 (processXEvent s e) rest).1.width = s.width ∧
        (native_poll_events_x11 (processXEvent s e) rest).1.height = s.height
      have h3 := ih (processXEvent s e) hrest
      cases e with
      | clientMessage =>
          exact ⟨by simpa [processXEvent] using h3.1, by simpa [processXEvent] using h3.2⟩
      | configureNotify w hh =>
          exact absurd (List.mem_cons_self _ rest) (h w hh)
      | otherEvent =>
          exact ⟨by simpa [processXEvent] using h3.1, by simpa [processXEvent] using h3.2⟩

theorem poll_win32_queue_empty (q : List Win32Msg) (s : WindowState) :
    (native_poll_events_win32 s q).2 = [] := by
  induction q generalizing s with
  | nil => rfl
  | cons m rest ih => exact ih (windowProc s m)

theorem poll_win32_open_mono (q : List Win32Msg) (s : WindowState)
    (h : (native_poll_events_win32 s q).1.is_open = true) : s.is_open = true := by
  induction q generalizing s with
  | nil => exact h
  | cons m rest ih =>
      have h2 : (native_poll_events_win32 (windowProc s m) rest).1.is_open = true := h
      have h3 := ih (windowProc s m) h2
      cases m with
      | wmClose => simp [windowProc] at h3
      | wmSize l => simpa [windowProc] using h3
      | wmDestroy => simpa [windowProc] using h3
      | otherMsg => simpa [windowProc] using h3

theorem poll_win32_closed_of_close (q : List Win32Msg) (s : WindowState)
    (h : Win32Msg.wmClose ∈ q) :
    (native_poll_events_win32 s q).1.is_open = false := by
  induction q generalizing s with
  | nil => cases h
  | cons m rest ih =>
      show (native_poll_events_win32 (windowProc s m) rest).1.is_open = false
      rcases List.mem_cons.mp h with hm | hrest
      · subst hm
        by_cases hres : (native_poll_events_win32 (windowProc s Win32Msg.wmClose) rest).1.is_open = true
        · have := poll_win32_open_mono rest _ hres
          simp [windowProc] at this
        · simpa using Bool.eq_false_iff.mpr hres
      · exact ih (windowProc s m) hrest

theorem poll_x11_preserves_time (q : List XEvent) (s : WindowState) :
    (native_poll_events_x11 s q).1.last_time = s.last_time ∧
    (native_poll_events_x11 s q).1.delta_time = s.delta_time := by
  induction q generalizing s with
  | nil => exact ⟨rfl, rfl⟩
  | cons e rest ih =>
      show (native_poll_events_x11 (processXEvent s e) rest).1.last_time = s.last_time ∧
        (native_poll_events_x11 (processXEvent s e) rest).1.delta_time = s.delta_time
      have h3 := ih (processXEvent s e)
      cases e with
      | clientMessage =>
          exact ⟨by simpa [processXEvent] using h3.1, by simpa [processXEvent] using h3.2⟩
      | configureNotify w hh =>
          exact ⟨by simpa [processXEvent] using h3.1, by simpa [processXEvent] using h3.2⟩
      | otherEvent =>
          exact ⟨by simpa [processXEvent] using h3.1, by simpa [processXEvent] using h3.2⟩

theorem poll_x11_append (q1 q2 : List XEvent) (s : WindowState) :
    (native_poll_events_x11 s (q1 ++ q2)).1 =
    (native_poll_events_x11 (native_poll_events_x11 s q1).1 q2).1 := by
  induction q1 generalizing s with
  | nil => rfl
  | cons e rest ih =>
      show (native_poll_events_x11 (processXEvent s e) (rest ++ q2)).1 =
        (native_poll_events_x11 (native_poll_events_x11 (processXEvent s e) rest).1 q2).1
      exact ih (processXEvent s e)

theorem update_x11_time (s : WindowState) (q : List XEvent) (t : Rat) :
    (native_update_x11 s q t).1.last_time = t ∧
    (native_update_x11 s q t).1.delta_time = t - s.last_time := by
  refine ⟨rfl, ?_⟩
  show t - (native_poll_events_x11 s q).1.last_time = t - s.last_time
  rw [(poll_x11_preserves_time q s).1]

theorem update_x11_open (s : WindowState) (q : List XEvent) (t : Rat) :
    (native_update_x11 s q t).1.is_open = (native_poll_events_x11 s q).1.is_open := rfl

theorem create_x11_cases (env : X11CreateEnv) (c : WindowConfig)
    (g : X11Globals) (s : WindowState) :
    (env.openDisplay = 0 ∧ native_create_window_x11 env c g s =
      (0, { g with g_display := env.openDisplay }, s, ["Failed to open X display"])) ∨
    (env.openDisplay ≠ 0 ∧ env.chooseVisualOk = false ∧
      native_create_window_x11 env c g s =
      (0, { g with g_display := env.openDisplay }, s, ["Failed to choose visual"])) ∨
    (env.openDisplay ≠ 0 ∧ env.chooseVisualOk = true ∧
      native_create_window_x11 env c g s =
      (1,
       { g_display := env.openDisplay, g_x_window := env.createdWindow,
         g_glx_context := env.glxContext },
       { s with native_handle := env.createdWindow, gl_context := env.glxContext,
                width := c.width, height := c.height, is_open := true },
       [])) := by
  by_cases h1 : env.openDisplay = 0
  · exact Or.inl ⟨h1, by simp [native_create_window_x11, h1]⟩
  · by_cases h2 : env.chooseVisualOk
    · exact Or.inr (Or.inr ⟨h1, h2, by simp [native_create_window_x11, h1, h2]⟩)
    · exact Or.inr (Or.inl ⟨h1, by simpa using h2, by simp [native_create_window_x11, h1, h2]⟩)

theorem create_win32_cases (env : Win32CreateEnv) (c : WindowConfig)
    (s : WindowState) :
    (env.registerClassOk = false ∧ native_create_window_win32 env c s =
      (0, s, ["Failed to register window class"])) ∨
    (env.registerClassOk = true ∧ env.createdHwnd = 0 ∧
      native_create_window_win32 env c s = (0, s, ["Failed to create window"])) ∨
    (env.registerClassOk = true ∧ env.createdHwnd ≠ 0 ∧
      native_create_window_win32 env c s =
      (1,
       { s with native_handle := env.createdHwnd, gl_context := env.hglrc,
                width := c.width, height := c.height, is_open := true,
                last_time := (env.tickCount : Rat) / 1000 },
       [])) := by
  by_cases h1 : env.registerClassOk
  · by_cases h2 : env.createdHwnd = 0
    · exact Or.inr (Or.inl ⟨h1, h2, by simp [native_create_window_win32, h1, h2]⟩)
    · exact Or.inr (Or.inr ⟨h1, h2, by simp [native_create_window_win32, h1, h2]⟩)
  · exact Or.inl ⟨by simpa using h1, by simp [native_create_window_win32, h1]⟩

theorem init_x11_spec (env : X11CreateEnv) (w h : Int) (t : String)
    (f v : Int) (g : X11Globals) (s : WindowState) :
    ((native_init_window_x11 env w h t f v g s).1 = 1 ↔
      env.openDisplay ≠ 0 ∧ env.chooseVisualOk = true) ∧
    ((native_init_window_x11 env w h t f v g s).1 = 0 ↔
      env.openDisplay = 0 ∨ env.chooseVisualOk = false) ∧
    ((native_init_window_x11 env w h t f v g s).1 = 0 →
      (native_init_window_x11 env w h t f v g s).2.2.1 = s) ∧
    ((native_init_window_x11 env w h t f v g s).1 = 1 →
      (native_init_window_x11 env w h t f v g s).2.2.1.is_open = true) ∧
    (native_init_window_x11 env w h t f v g s).2.2.2 =
      (native_create_window_x11 env (initConfig w h t f v) g s).2.2.2 := by
  rcases create_x11_cases env (initConfig w h t f v) g s with
    ⟨h1, heq⟩ | ⟨h1, h2, heq⟩ | ⟨h1, h2, heq⟩
  · simp [native_init_window_x11, heq, h1]
  · simp [native_init_window_x11, heq, h1, h2]
  · simp [native_init_window_x11, heq, h1, h2]

theorem init_win32_spec (env : Win32CreateEnv) (w h : Int) (t : String)
    (f v : Int) (s : WindowState) :
    ((native_init_window_win32 env w h t f v s).1 = 1 ↔
      env.registerClassOk = true ∧ env.createdHwnd ≠ 0) ∧
    ((native_init_window_win32 env w h t f v s).1 = 0 ↔
      env.registerClassOk = false ∨ env.createdHwnd = 0) ∧
    ((native_init_window_win32 env w h t f v s).1 = 0 →
      (native_init_window_win32 env w h t f v s).2.1 = s) ∧
    (native_init_window_win32 env w h t f v s).2.2 =
      (native_create_window_win32 env (initConfig w h t f v) s).2.2 := by
  rcases create_win32_cases env (initConfig w h t f v) s with
    ⟨h1, heq⟩ | ⟨h1, h2, heq⟩ | ⟨h1, h2, heq⟩
  · simp [native_init_window_win32, heq, h1]
  · simp [native_init_window_win32, heq, h1, h2]
  · simp [native_init_window_win32, heq, h1, h2]

/- Claim theorems. -/

/-- C1: for every pair of source strings, native_create_shader returns 0
after printing the relevant GL info log when vertex compilation, fragment
compilation or program linking fails, and returns the program name — nonzero,
since glCreateProgram yields a nonzero name on success — when both shaders
compile and the program links. -/
theorem C1_create_shader_spec (env : GLEnv) (vertex_src fragment_src : String)
    (hprog : env.programId ≠ 0) :
    (env.compileOk vertex_src = false →
      native_create_shader env vertex_src fragment_src =
        (0, ["Vertex shader compilation failed: " ++ env.infoLog vertex_src])) ∧
    (env.compileOk vertex_src = true → env.compileOk fragment_src = false →
      native_create_shader env vertex_src fragment_src =
        (0, ["Fragment shader compilation failed: " ++ env.infoLog fragment_src])) ∧
    (env.compileOk vertex_src = true → env.compileOk fragment_src = true →
      env.linkOk = false →
      native_create_shader env vertex_src fragment_src =
        (0, ["Shader program linking failed: " ++ env.programInfoLog])) ∧
    (env.compileOk vertex_src = true → env.compileOk fragment_src = true →
      env.linkOk = true →
      (native_create_shader env vertex_src fragment_src).1 = env.programId ∧
      (native_create_shader env vertex_src fragment_src).1 ≠ 0) := by
  refine ⟨?_, ?_, ?_, ?_⟩
  · intro h1; simp [native_create_shader, h1]
  · intro h1 h2; simp [native_create_shader, h1, h2]
  · intro h1 h2 h3; simp [native_create_shader, h1, h2, h3]
  · intro h1 h2 h3
    refine ⟨by simp [native_create_shader, h1, h2, h3], ?_⟩
    simpa [native_create_shader, h1, h2, h3] using hprog

/-- An all-success GL driver response with program name 3. -/
def glEnvOk : GLEnv :=
  { compileOk := fun _ => true, infoLog := fun _ => "",
    linkOk := true, programId := 3, programInfoLog := "" }

/-- C1 witness: on the all-success driver the shader call yields program 3. -/
theorem C1_witness :
    (native_create_shader glEnvOk "v" "f").1 = glEnvOk.programId ∧
    (native_create_shader glEnvOk "v" "f").1 ≠ 0 :=
  (C1_create_shader_spec glEnvOk "v" "f" (by decide)).2.2.2 rfl rfl rfl

/-- C2: after two consecutive native_update calls whose monotone clock reads
t1 and then t2, native_get_delta_time returns exactly t2 - t1, the wall time
elapsed between the two calls, and that value is non-negative. -/
theorem C2_delta_time_spec (s : WindowState) (q1 q2 : List XEvent)
    (t1 t2 : Rat) (hmono : t1 ≤ t2) :
    native_get_delta_time
      (native_update_x11 (native_update_x11 s q1 t1).1 q2 t2).1 = t2 - t1 ∧
    0 ≤ native_get_delta_time
      (native_update_x11 (native_update_x11 s q1 t1).1 q2 t2).1 := by
  have h1 := (update_x11_time s q1 t1).1
  have h2 := (update_x11_time (native_update_x11 s q1 t1).1 q2 t2).2
  have hdt : native_get_delta_time
      (native_update_x11 (native_update_x11 s q1 t1).1 q2 t2).1 = t2 - t1 := by
    show (native_update_x11 (native_update_x11 s q1 t1).1 q2 t2).1.delta_time = t2 - t1
    rw [h2, h1]
  exact ⟨hdt, by rw [hdt]; exact sub_nonneg.mpr hmono⟩

/-- C2 witness: updates at times 1 then 3 leave a delta time of 2. -/
theorem C2_witness :
    (1 : Rat) ≤ 3 ∧
    (native_get_delta_time
      (native_update_x11 (native_update_x11 initialWindowState [] 1).1 [] 3).1 = 3 - 1 ∧
     0 ≤ native_get_delta_time
      (native_update_x11 (native_update_x11 initialWindowState [] 1).1 [] 3).1) :=
  ⟨by norm_num, C2_delta_time_spec initialWindowState [] [] 1 3 (by norm_num)⟩

/-- A fully populated open-window state used as a concrete test point. -/
def sampleOpenState : WindowState :=
  { native_handle := 7, gl_context := 9, width := 800, height := 600,
    is_open := true, last_time := 5, delta_time := 2 }

/-- C3 counterexample: destroying the window from sampleOpenState does not
reset the record — the handle, context, size and timing fields keep their
old values, so the state differs from the zero-initialized one even though
the open flag is cleared. -/
theorem C3_counterexample :
    native_destroy_window sampleOpenState ≠ initialWindowState ∧
    (native_destroy_window sampleOpenState).native_handle = 7 ∧
    (native_destroy_window sampleOpenState).gl_context = 9 ∧
    (native_destroy_window sampleOpenState).width = 800 ∧
    (native_destroy_window sampleOpenState).height = 600 ∧
    (native_destroy_window sampleOpenState).last_time = 5 ∧
    (native_destroy_window sampleOpenState).delta_time = 2 := by
  refine ⟨?_, rfl, rfl, rfl, rfl, rfl, rfl⟩
  intro h
  have := congrArg WindowState.width h
  simp [native_destroy_window, sampleOpenState, initialWindowState] at this

/-- C3 amended: native_destroy_window clears only the open flag — so
native_is_window_open returns 0 afterward — and leaves every other field of
the record (handles, size, timing) at its previous value. -/
theorem C3_destroy_spec (s : WindowState) :
    (native_destroy_window s).is_open = false ∧
    native_is_window_open (native_destroy_window s) = 0 ∧
    (native_destroy_window s).native_handle = s.native_handle ∧
    (native_destroy_window s).gl_context = s.gl_context ∧
    (native_destroy_window s).width = s.width ∧
    (native_destroy_window s).height = s.height ∧
    (native_destroy_window s).last_time = s.last_time ∧
    (native_destroy_window s).delta_time = s.delta_time := by
  refine ⟨rfl, ?_, rfl, rfl, rfl, rfl, rfl, rfl⟩
  simp [native_is_window_open, native_destroy_window]

/-- C4: on both builds native_poll_events consumes every queued event before
returning (the remaining queue is empty), and when a window-close event
(ClientMessage on X11, WM_CLOSE on Win32) is among them the open flag ends
false, so native_is_window_open returns 0 afterward. -/
theorem C4_poll_events_spec (s : WindowState) (q : List XEvent)
    (m : List Win32Msg) :
    (native_poll_events_x11 s q).2 = [] ∧
    (native_poll_events_win32 s m).2 = [] ∧
    (XEvent.clientMessage ∈ q →
      native_is_window_open (native_poll_events_x11 s q).1 = 0) ∧
    (Win32Msg.wmClose ∈ m →
      native_is_window_open (native_poll_events_win32 s m).1 = 0) := by
  refine ⟨poll_x11_queue_empty q s, poll_win32_queue_empty m s, ?_, ?_⟩
  · intro hc
    simp [native_is_window_open, poll_x11_closed_of_close q s hc]
  · intro hc
    simp [native_is_window_open, poll_win32_closed_of_close m s hc]

/-- C4 witness: pumping a lone close event on an open window leaves the
queue empty and the window reported closed. -/
theorem C4_witness :
    (native_poll_events_x11 sampleOpenState [XEvent.clientMessage]).2 = [] ∧
    (native_poll_events_win32 sampleOpenState []).2 = [] ∧
    native_is_window_open
      (native_poll_events_x11 sampleOpenState [XEvent.clientMessage]).1 = 0 :=
  have h := C4_poll_events_spec sampleOpenState [XEvent.clientMessage] []
  ⟨h.1, h.2.1, h.2.2.1 (List.mem_singleton.mpr rfl)⟩

/-- C5: after the X11 pump processes a ConfigureNotify event carrying the
new size (w, h), with no further resize event behind it in the batch,
native_get_window_size reports exactly (w, h). -/
theorem C5_resize_spec (s : WindowState) (q1 q2 : List XEvent) (w h : Int)
    (hq2 : ∀ a b, XEvent.configureNotify a b ∉ q2) :
    native_get_window_size
      (native_poll_events_x11 s (q1 ++ XEvent.configureNotify w h :: q2)).1 =
      (w, h) := by
  have happ := poll_x11_append q1 (XEvent.configureNotify w h :: q2) s
  have hstep : (native_poll_events_x11 (native_poll_events_x11 s q1).1
      (XEvent.configureNotify w h :: q2)).1 =
      (native_poll_events_x11
        (processXEvent (native_poll_events_x11 s q1).1
          (XEvent.configureNotify w h)) q2).1 := rfl
  have hsize := poll_x11_size_of_no_resize q2
    (processXEvent (native_poll_events_x11 s q1).1 (XEvent.configureNotify w h)) hq2
  have hw : (processXEvent (native_poll_events_x11 s q1).1
      (XEvent.configureNotify w h)).width = w := rfl
  have hh2 : (processXEvent (native_poll_events_x11 s q1).1
      (XEvent.configureNotify w h)).height = h := rfl
  show ((native_poll_events_x11 s (q1 ++ XEvent.configureNotify w h :: q2)).1.width,
        (native_poll_events_x11 s (q1 ++ XEvent.configureNotify w h :: q2)).1.height) = (w, h)
  rw [happ, hstep, hsize.1, hsize.2, hw, hh2]

/-- C5 witness: a single resize event to 640 x 480 is reported verbatim. -/
theorem C5_witness :
    native_get_window_size
      (native_poll_events_x11 initialWindowState
        ([] ++ XEvent.configureNotify 640 480 :: [])).1 = (640, 480) :=
  C5_resize_spec initialWindowState [] [] 640 480
    (by intro a b hmem; exact (List.not_mem_nil _) hmem)

/-- C6: native_init_window returns only 0 or 1 on both builds; it returns 0
exactly when window creation fails — XOpenDisplay or glXChooseVisual failure
on X11, class registration or CreateWindowEx failure on Win32, each printing
its message — and 1 exactly when creation succeeds. -/
theorem C6_init_window_spec (envx : X11CreateEnv) (envw : Win32CreateEnv)
    (w h : Int) (t : String) (f v : Int) (g : X11Globals) (s : WindowState) :
    ((native_init_window_x11 envx w h t f v g s).1 = 0 ∨
     (native_init_window_x11 envx w h t f v g s).1 = 1) ∧
    ((native_init_window_x11 envx w h t f v g s).1 = 0 ↔
      envx.openDisplay = 0 ∨ envx.chooseVisualOk = false) ∧
    (envx.openDisplay = 0 →
      (native_init_window_x11 envx w h t f v g s).2.2.2 =
        ["Failed to open X display"]) ∧
    (envx.openDisplay ≠ 0 → envx.chooseVisualOk = false →
      (native_init_window_x11 envx w h t f v g s).2.2.2 =
        ["Failed to choose visual"]) ∧
    ((native_init_window_win32 envw w h t f v s).1 = 0 ∨
     (native_init_window_win32 envw w h t f v s).1 = 1) ∧
    ((native_init_window_win32 envw w h t f v s).1 = 0 ↔
      envw.registerClassOk = false ∨ envw.createdHwnd = 0) ∧
    (envw.registerClassOk = false →
      (native_init_window_win32 envw w h t f v s).2.2 =
        ["Failed to register window class"]) ∧
    (envw.registerClassOk = true → envw.createdHwnd = 0 →
      (native_init_window_win32 envw w h t f v s).2.2 =
        ["Failed to create window"]) := by
  have hx := init_x11_spec envx w h t f v g s
  have hw32 := init_win32_spec envw w h t f v s
  refine ⟨?_, hx.2.1, ?_, ?_, ?_, hw32.2.1, ?_, ?_⟩
  · by_cases hc : envx.openDisplay = 0 ∨ envx.chooseVisualOk = false
    · exact Or.inl (hx.2.1.mpr hc)
    · push_neg at hc
      exact Or.inr (hx.1.mpr ⟨hc.1, by simpa using hc.2⟩)
  · intro h1
    rcases create_x11_cases envx (initConfig w h t f v) g s with
      ⟨_, heq⟩ | ⟨h1x, _, _⟩ | ⟨h1x, _, _⟩
    · rw [hx.2.2.2.2, heq]
    · exact absurd h1 h1x
    · exact absurd h1 h1x
  · intro h1 h2
    rcases create_x11_cases envx (initConfig w h t f v) g s with
      ⟨h1x, _⟩ | ⟨_, _, heq⟩ | ⟨_, h2x, _⟩
    · exact absurd h1x h1
    · rw [hx.2.2.2.2, heq]
    · rw [h2x] at h2; exact absurd h2 (by simp)
  · by_cases hc : envw.registerClassOk = false ∨ envw.createdHwnd = 0
    · exact Or.inl (hw32.2.1.mpr hc)
    · push_neg at hc
      exact Or.inr (hw32.1.mpr ⟨by simpa using hc.1, hc.2⟩)
  · intro h1
    rcases create_win32_cases envw (initConfig w h t f v) s with
      ⟨_, heq⟩ | ⟨h1w, _, _⟩ | ⟨h1w, _, _⟩
    · rw [hw32.2.2.2, heq]
    · rw [h1w] at h1; exact absurd h1 (by simp)
    · rw [h1w] at h1; exact absurd h1 (by simp)
  · intro h1 h2
    rcases create_win32_cases envw (initConfig w h t f v) s with
      ⟨h1w, _⟩ | ⟨_, _, heq⟩ | ⟨_, h2w, _⟩
    · rw [h1] at h1w; exact absurd h1w (by simp)
    · rw [hw32.2.2.2, heq]
    · exact absurd h2 h2w

/-- An X11 creation environment in which every OS call succeeds. -/
def x11EnvOk : X11CreateEnv :=
  { openDisplay := 11, chooseVisualOk := true, createdWindow := 21,
    glxContext := 31 }

/-- An X11 creation environment in which XOpenDisplay returns NULL. -/
def x11EnvNoDisplay : X11CreateEnv :=
  { openDisplay := 0, chooseVisualOk := true, createdWindow := 21,
    glxContext := 31 }

/-- C6 witness: with XOpenDisplay failing, init returns 0 and prints the
display message; the Win32 side with a failing RegisterClassEx prints its
message. -/
theorem C6_witness :
    (native_init_window_x11 x11EnvNoDisplay 800 600 "t" 0 0
      initialX11Globals initialWindowState).2.2.2 =
      ["Failed to open X display"] ∧
    (native_init_window_win32
      { registerClassOk := false, createdHwnd := 5, hglrc := 6, tickCount := 7 }
      800 600 "t" 0 0 initialWindowState).2.2 =
      ["Failed to register window class"] :=
  have h := C6_init_window_spec x11EnvNoDisplay
    { registerClassOk := false, createdHwnd := 5, hglrc := 6, tickCount := 7 }
    800 600 "t" 0 0 initialX11Globals initialWindowState
  ⟨h.2.2.1 rfl, h.2.2.2.2.2.2.1 rfl⟩

/-- C7: on the X11 build the open flag is a state-machine invariant: it is
false in the zero-initialized state, a step flips it from false to true only
when that step is a native_init_window call that returned 1, a step flips it
from true to false only when that step is native_destroy_window or an event
pump (native_poll_events directly or inside native_update) whose queue holds
a close event, and native_is_window_open returns 1 exactly on true and 0
exactly on false. -/
theorem C7_open_flag_invariant :
    initialWindowState.is_open = false ∧
    (∀ g s op, s.is_open = false → (stepOp (g, s) op).2.is_open = true →
      ∃ env w h t f v, op = Op.init env w h t f v ∧
        (native_init_window_x11 env w h t f v g s).1 = 1) ∧
    (∀ g s op, s.is_open = true → (stepOp (g, s) op).2.is_open = false →
      op = Op.destroy ∨
      (∃ q, op = Op.poll q ∧ XEvent.clientMessage ∈ q) ∨
      (∃ q t, op = Op.update q t ∧ XEvent.clientMessage ∈ q)) ∧
    (∀ s, (native_is_window_open s = 1 ↔ s.is_open = true) ∧
          (native_is_window_open s = 0 ↔ s.is_open = false)) := by
  refine ⟨rfl, ?_, ?_, ?_⟩
  · intro g s op h0 h1
    cases op with
    | init env w h t f v =>
        refine ⟨env, w, h, t, f, v, rfl, ?_⟩
        have hspec := init_x11_spec env w h t f v g s
        by_cases hr : (native_init_window_x11 env w h t f v g s).1 = 0
        · have hunch := hspec.2.2.1 hr
          have h1x : (native_init_window_x11 env w h t f v g s).2.2.1.is_open = true := h1
          rw [hunch, h0] at h1x
          exact absurd h1x (by simp)
        · rcases create_x11_cases env (initConfig w h t f v) g s with
            ⟨hd, _⟩ | ⟨_, hv2, _⟩ | ⟨hd, hv2, _⟩
          · exact absurd (hspec.2.1.mpr (Or.inl hd)) hr
          · exact absurd (hspec.2.1.mpr (Or.inr hv2)) hr
          · exact hspec.1.mpr ⟨hd, hv2⟩
    | destroy =>
        have h1x : (native_destroy_window s).is_open = true := h1
        simp [native_destroy_window] at h1x
    | poll q =>
        have h1x : (native_poll_events_x11 s q).1.is_open = true := h1
        have := poll_x11_open_mono q s h1x
        rw [h0] at this
        exact absurd this (by simp)
    | update q t =>
        have h1x : (native_update_x11 s q t).1.is_open = true := h1
        rw [update_x11_open] at h1x
        have := poll_x11_open_mono q s h1x
        rw [h0] at this
        exact absurd this (by simp)
  · intro g s op h0 h1
    cases op with
    | init env w h t f v =>
        have hspec := init_x11_spec env w h t f v g s
        by_cases hr : (native_init_window_x11 env w h t f v g s).1 = 0
        · have hunch := hspec.2.2.1 hr
          have h1x : (native_init_window_x11 env w h t f v g s).2.2.1.is_open = false := h1
          rw [hunch, h0] at h1x
          exact absurd h1x (by simp)
        · have hone : (native_init_window_x11 env w h t f v g s).1 = 1 := by
            rcases create_x11_cases env (initConfig w h t f v) g s with
              ⟨hd, _⟩ | ⟨_, hv2, _⟩ | ⟨hd, hv2, _⟩
            · exact absurd (hspec.2.1.mpr (Or.inl hd)) hr
            · exact absurd (hspec.2.1.mpr (Or.inr hv2)) hr
            · exact hspec.1.mpr ⟨hd, hv2⟩
          have hopen := hspec.2.2.2.1 hone
          have h1x : (native_init_window_x11 env w h t f v g s).2.2.1.is_open = false := h1
          rw [hopen] at h1x
          exact absurd h1x (by simp)
    | destroy => exact Or.inl rfl
    | poll q =>
        refine Or.inr (Or.inl ⟨q, rfl, ?_⟩)
        by_contra hq
        have h1x : (native_poll_events_x11 s q).1.is_open = false := h1
        rw [poll_x11_open_of_no_close q s hq, h0] at h1x
        exact absurd h1x (by simp)
    | update q t =>
        refine Or.inr (Or.inr ⟨q, t, rfl, ?_⟩)
        by_contra hq
        have h1x : (native_update_x11 s q t).1.is_open = false := h1
        rw [update_x11_open, poll_x11_open_of_no_close q s hq, h0] at h1x
        exact absurd h1x (by simp)
  · intro s
    cases hs : s.is_open <;> simp [native_is_window_open, hs]

/-- C7 witness: from the concrete open state, a destroy step that closes the
window is classified as Op.destroy by the invariant. -/
theorem C7_witness :
    Op.destroy = Op.destroy ∨
    (∃ q, Op.destroy = Op.poll q ∧ XEvent.clientMessage ∈ q) ∨
    (∃ q t, Op.destroy = Op.update q t ∧ XEvent.clientMessage ∈ q) :=
  C7_open_flag_invariant.2.2.1 initialX11Globals sampleOpenState Op.destroy
    rfl rfl

/-- C8 counterexample: on Win32 a successful query with a working set of
2^31 bytes (2 GiB, a realizable size) returns -2^31, not the working-set
size: the C cast to the 32-bit long wraps, so the original claim that the
working-set size is returned on every successful query is false. -/
theorem C8_counterexample :
    native_get_memory_usage_win32 { queryOk := true, workingSetSize := 2 ^ 31 } =
      -(2 ^ 31 : Int) ∧
    native_get_memory_usage_win32 { queryOk := true, workingSetSize := 2 ^ 31 } ≠
      ((2 ^ 31 : Nat) : Int) := by
  refine ⟨?_, ?_⟩ <;> decide

/-- C8 amended: native_get_memory_usage returns 0 on every non-Windows build
and on Win32 whenever GetProcessMemoryInfo fails; on Win32 with a successful
query it returns the working-set size truncated to a signed 32-bit long —
congruent to the size modulo 2^32 and lying in [-2^31, 2^31) — which equals
the working-set size exactly whenever that size is below 2^31. -/
theorem C8_memory_usage_spec (env : Win32MemEnv) :
    native_get_memory_usage_other = 0 ∧
    (env.queryOk = false → native_get_memory_usage_win32 env = 0) ∧
    (env.queryOk = true →
      native_get_memory_usage_win32 env % 2 ^ 32 =
        (env.workingSetSize : Int) % 2 ^ 32 ∧
      -(2 ^ 31) ≤ native_get_memory_usage_win32 env ∧
      native_get_memory_usage_win32 env < 2 ^ 31) ∧
    (env.queryOk = true → env.workingSetSize < 2 ^ 31 →
      native_get_memory_usage_win32 env = (env.workingSetSize : Int)) := by
  refine ⟨rfl, ?_, ?_, ?_⟩
  · intro hq
    simp [native_get_memory_usage_win32, hq]
  · intro hq
    have h0 : native_get_memory_usage_win32 env = longOfSizeT env.workingSetSize := by
      simp [native_get_memory_usage_win32, hq]
    rw [h0]
    simp only [longOfSizeT]
    split
    · refine ⟨?_, ?_, ?_⟩ <;> omega
    · refine ⟨?_, ?_, ?_⟩ <;> omega
  · intro hq hlt
    simp [native_get_memory_usage_win32, longOfSizeT, hq]
    split
    · omega
    · omega

/-- C8 witness: a successful query with a 1 MiB working set reports 1 MiB
exactly, and its result is congruent to the size and within the long range. -/
theorem C8_witness :
    native_get_memory_usage_win32 { queryOk := true, workingSetSize := 1048576 } =
      (1048576 : Int) ∧
    native_get_memory_usage_win32 { queryOk := true, workingSetSize := 1048576 } % 2 ^ 32 =
      ((1048576 : Nat) : Int) % 2 ^ 32 :=
  have h := C8_memory_usage_spec { queryOk := true, workingSetSize := 1048576 }
  ⟨h.2.2.2 rfl (by norm_num), (h.2.2.1 rfl).1⟩

/-- C9: whenever native_create_window (and hence native_init_window) fails
by returning 0, the g_window record it hands back is exactly the one passed
in — the open flag stays false if it was false and no handle, size or timing
field has been written — on both the X11 and the Win32 build. -/
theorem C9_create_fail_state_unchanged (envx : X11CreateEnv)
    (envw : Win32CreateEnv) (c : WindowConfig) (w h : Int) (t : String)
    (f v : Int) (g : X11Globals) (s : WindowState) :
    ((native_create_window_x11 envx c g s).1 = 0 →
      (native_create_window_x11 envx c g s).2.2.1 = s) ∧
    ((native_create_window_win32 envw c s).1 = 0 →
      (native_create_window_win32 envw c s).2.1 = s) ∧
    ((native_init_window_x11 envx w h t f v g s).1 = 0 →
      (native_init_window_x11 envx w h t f v g s).2.2.1 = s) ∧
    ((native_init_window_win32 envw w h t f v s).1 = 0 →
      (native_init_window_win32 envw w h t f v s).2.1 = s) := by
  refine ⟨?_, ?_, (init_x11_spec envx w h t f v g s).2.2.1,
    (init_win32_spec envw w h t f v s).2.2.1⟩
  · intro hr
    rcases create_x11_cases envx c g s with
      ⟨_, heq⟩ | ⟨_, _, heq⟩ | ⟨_, _, heq⟩
    · rw [heq]
    · rw [heq]
    · rw [heq] at hr
      exact absurd hr (by simp)
  · intro hr
    rcases create_win32_cases envw c s with
      ⟨_, heq⟩ | ⟨_, _, heq⟩ | ⟨_, _, heq⟩
    · rw [heq]
    · rw [heq]
    · rw [heq] at hr
      exact absurd hr (by simp)

/-- C9 witness: with XOpenDisplay failing, create hands back the initial
g_window record untouched. -/
theorem C9_witness :
    (native_create_window_x11 x11EnvNoDisplay
      (initConfig 800 600 "t" 0 0) initialX11Globals initialWindowState).2.2.1 =
      initialWindowState :=
  (C9_create_fail_state_unchanged x11EnvNoDisplay
    { registerClassOk := false, createdHwnd := 0, hglrc := 0, tickCount := 0 }
    (initConfig 800 600 "t" 0 0) 800 600 "t" 0 0
    initialX11Globals initialWindowState).1 rfl

/-- C10: a successful X11 native_create_window leaves last_time unchanged —
hence still 0 when starting from the zero-initialized state — whereas a
successful Win32 creation sets it to the GetTickCount reading divided by
1000; consequently the first native_update after an X11 creation from the
initial state sets delta_time to the absolute CLOCK_MONOTONIC timestamp
itself rather than to the time since creation. -/
theorem C10_x11_last_time_spec (envx : X11CreateEnv) (envw : Win32CreateEnv)
    (c : WindowConfig) (g : X11Globals) (s : WindowState) (q : List XEvent)
    (tc : Rat) (hx : envx.openDisplay ≠ 0) (hv : envx.chooseVisualOk = true)
    (hw : envw.registerClassOk = true) (hh : envw.createdHwnd ≠ 0) :
    (native_create_window_x11 envx c g s).2.2.1.last_time = s.last_time ∧
    (native_create_window_x11 envx c initialX11Globals
      initialWindowState).2.2.1.last_time = 0 ∧
    (native_create_window_win32 envw c s).2.1.last_time =
      (envw.tickCount : Rat) / 1000 ∧
    native_get_delta_time
      (native_update_x11 (native_create_window_x11 envx c initialX11Globals
        initialWindowState).2.2.1 q tc).1 = tc := by
  have hxcase : ∀ g2 s2, (native_create_window_x11 envx c g2 s2).2.2.1.last_time =
      s2.last_time := by
    intro g2 s2
    rcases create_x11_cases envx c g2 s2 with
      ⟨hd, _⟩ | ⟨_, hv2, _⟩ | ⟨_, _, heq⟩
    · exact absurd hd hx
    · rw [hv] at hv2; exact absurd hv2 (by simp)
    · rw [heq]
  have hzero : (native_create_window_x11 envx c initialX11Globals
      initialWindowState).2.2.1.last_time = 0 :=
    hxcase initialX11Globals initialWindowState
  refine ⟨hxcase g s, hzero, ?_, ?_⟩
  · rcases create_win32_cases envw c s with
      ⟨hr, _⟩ | ⟨_, hc0, _⟩ | ⟨_, _, heq⟩
    · rw [hw] at hr; exact absurd hr (by simp)
    · exact absurd hc0 hh
    · rw [heq]
  · have hupd := (update_x11_time (native_create_window_x11 envx c
      initialX11Globals initialWindowState).2.2.1 q tc).2
    show (native_update_x11 (native_create_window_x11 envx c initialX11Globals
      initialWindowState).2.2.1 q tc).1.delta_time = tc
    rw [hupd, hzero, sub_zero]

/-- C10 witness: with every X11 call succeeding, creation from the initial
state keeps last_time at 0 and the first update at clock reading 5 reports
a delta of 5, the absolute timestamp. -/
theorem C10_witness :
    (native_create_window_x11 x11EnvOk (initConfig 800 600 "t" 0 0)
      initialX11Globals initialWindowState).2.2.1.last_time = 0 ∧
    native_get_delta_time
      (native_update_x11 (native_create_window_x11 x11EnvOk
        (initConfig 800 600 "t" 0 0) initialX11Globals
        initialWindowState).2.2.1 [] 5).1 = 5 :=
  have h := C10_x11_last_time_spec x11EnvOk
    { registerClassOk := true, createdHwnd := 5, hglrc := 6, tickCount := 7 }
    (initConfig 800 600 "t" 0 0) initialX11Globals initialWindowState [] 5
    (by decide) rfl rfl (by decide)
  ⟨h.2.1, h.2.2.2⟩

end Pyflare
